import Mathlib

/-!
# Toygres control plane: verification of the orchestration and activity layer

Shallow embedding of the toygres workflows (CreateInstance, DeleteInstance,
InstanceActor) and of the activities they schedule, translated from the Rust
sources under toygres-orchestrations.  Orchestrations are embedded as pure
functions from an environment (the recorded results of the activities they
await, exactly the data a durable-execution history supplies on replay) to the
list of scheduling decisions they emit plus their final result.  CMS activities
are embedded as functions on an explicit catalog state; the Kubernetes delete
activity as a function on the existence state of the three per-instance
resources.
-/

namespace Toygres

/-- Boolean list-prefix test (mirrors Rust str::starts_with on char lists). -/
def listPrefix : List Char → List Char → Bool
  | [], _ => true
  | _ :: _, [] => false
  | a :: as, b :: bs => a == b && listPrefix as bs

/-- Boolean list-infix test: the first list occurs contiguously in the second. -/
def listInfix : List Char → List Char → Bool
  | sub, [] => sub.isEmpty
  | sub, c :: rest => listPrefix sub (c :: rest) || listInfix sub rest

/-- Rust str::starts_with. -/
def strStartsWith (s pfx : String) : Bool :=
  listPrefix pfx.toList s.toList

/-- Substring containment (used to state "error message contains ..."). -/
def strContains (s sub : String) : Bool :=
  listInfix sub.toList s.toList

/-- SQL COALESCE(a, b) over nullable text columns. -/
def coalesce (a b : Option String) : Option String :=
  match a with
  | some v => some v
  | none => b

/-! ## Activity input/output types (activity_types.rs)

Rust i32/i64/u64 fields are modelled as Int or Nat (no arithmetic near the
overflow boundary occurs in any embedded code path); Uuid as Nat.  The Rust
field `namespace` is a Lean keyword and is rendered `namespace_`. -/

structure DeployPostgresInput where
  namespace_ : String
  instance_name : String
  password : String
  postgres_version : String
  storage_size_gb : Int
  use_load_balancer : Bool
  dns_label : Option String
  deriving DecidableEq, Repr

structure DeployPostgresOutput where
  instance_name : String
  namespace_ : String
  created : Bool
  deriving DecidableEq, Repr

structure DeletePostgresInput where
  namespace_ : String
  instance_name : String
  deriving DecidableEq, Repr

structure DeletePostgresOutput where
  deleted : Bool
  deriving DecidableEq, Repr

structure WaitForReadyInput where
  namespace_ : String
  instance_name : String
  timeout_seconds : Nat
  deriving DecidableEq, Repr

structure WaitForReadyOutput where
  pod_phase : String
  is_ready : Bool
  deriving DecidableEq, Repr

structure GetConnectionStringsInput where
  namespace_ : String
  instance_name : String
  password : String
  use_load_balancer : Bool
  dns_label : Option String
  deriving DecidableEq, Repr

structure GetConnectionStringsOutput where
  ip_connection_string : String
  dns_connection_string : Option String
  external_ip : Option String
  dns_name : Option String
  deriving DecidableEq, Repr

structure TestConnectionInput where
  connection_string : String
  deriving DecidableEq, Repr

structure TestConnectionOutput where
  version : String
  connected : Bool
  deriving DecidableEq, Repr

structure CreateInstanceRecordInput where
  user_name : String
  k8s_name : String
  namespace_ : String
  postgres_version : String
  storage_size_gb : Int
  use_load_balancer : Bool
  dns_name : Option String
  orchestration_id : String
  deriving DecidableEq, Repr

structure CreateInstanceRecordOutput where
  instance_id : Nat
  deriving DecidableEq, Repr

structure UpdateInstanceStateInput where
  k8s_name : String
  state : String
  ip_connection_string : Option String
  dns_connection_string : Option String
  external_ip : Option String
  delete_orchestration_id : Option String
  message : Option String
  deriving DecidableEq, Repr

structure UpdateInstanceStateOutput where
  updated : Bool
  previous_state : Option String
  deriving DecidableEq, Repr

structure FreeDnsNameInput where
  k8s_name : String
  deriving DecidableEq, Repr

structure FreeDnsNameOutput where
  freed : Bool
  deriving DecidableEq, Repr

structure GetInstanceByK8sNameInput where
  k8s_name : String
  deriving DecidableEq, Repr

structure CmsInstanceRecord where
  id : Nat
  user_name : String
  k8s_name : String
  namespace_ : String
  state : String
  dns_name : Option String
  deriving DecidableEq, Repr

structure GetInstanceByK8sNameOutput where
  found : Bool
  record : Option CmsInstanceRecord
  instance_actor_orchestration_id : Option String
  deriving DecidableEq, Repr

structure GetInstanceConnectionInput where
  k8s_name : String
  deriving DecidableEq, Repr

structure GetInstanceConnectionOutput where
  found : Bool
  connection_string : Option String
  state : Option String
  deriving DecidableEq, Repr

structure RecordHealthCheckInput where
  k8s_name : String
  status : String
  postgres_version : Option String
  response_time_ms : Option Int
  error_message : Option String
  deriving DecidableEq, Repr

structure RecordHealthCheckOutput where
  recorded : Bool
  check_id : Int
  deriving DecidableEq, Repr

structure UpdateInstanceHealthInput where
  k8s_name : String
  health_status : String
  deriving DecidableEq, Repr

structure UpdateInstanceHealthOutput where
  updated : Bool
  deriving DecidableEq, Repr

structure RecordInstanceActorInput where
  k8s_name : String
  instance_actor_orchestration_id : String
  deriving DecidableEq, Repr

structure RecordInstanceActorOutput where
  recorded : Bool
  deriving DecidableEq, Repr

structure DeleteInstanceRecordInput where
  k8s_name : String
  deriving DecidableEq, Repr

structure DeleteInstanceRecordOutput where
  deleted : Bool
  deriving DecidableEq, Repr

structure RaiseEventInput where
  instance_id : String
  event_name : String
  event_data : String
  deriving DecidableEq, Repr

structure RaiseEventOutput where
  raised : Bool
  deriving DecidableEq, Repr

/-! ## Workflow input/output types (types.rs) -/

structure CreateInstanceInput where
  user_name : String
  name : String
  password : String
  postgres_version : Option String
  storage_size_gb : Option Int
  use_load_balancer : Option Bool
  dns_label : Option String
  namespace_ : Option String
  orchestration_id : String
  deriving DecidableEq, Repr

structure CreateInstanceOutput where
  instance_name : String
  namespace_ : String
  ip_connection_string : String
  dns_connection_string : Option String
  external_ip : Option String
  dns_name : Option String
  postgres_version : String
  deployment_time_seconds : Nat
  deriving DecidableEq, Repr

structure DeleteInstanceInput where
  name : String
  namespace_ : Option String
  orchestration_id : String
  deriving DecidableEq, Repr

structure DeleteInstanceOutput where
  instance_name : String
  deleted : Bool
  deriving DecidableEq, Repr

structure InstanceActorInput where
  k8s_name : String
  namespace_ : String
  orchestration_id : String
  deriving DecidableEq, Repr

/-! ## Catalog Metadata Store model

One row of toygres_cms.instances, restricted to the columns the code under
src/ reads or writes.  Timestamp columns (created_at/updated_at/deleted_at)
carry no information any embedded claim touches and are omitted.

The `message` column is an exception: no SQL statement in src/ reads or
writes an instances.message column, and the schema SQL itself is outside
src/.  Modelled from the spec: the Update State contract of spec section 4.4
lists `message` among the optional row fields, so the row carries a
`message` column here; the embedded statements below touch exactly the
columns their SQL names, so this column is written by none of them. -/

structure InstanceRow where
  id : Nat
  user_name : String
  k8s_name : String
  namespace_ : String
  postgres_version : String
  storage_size_gb : Int
  use_load_balancer : Bool
  dns_name : Option String
  state : String
  health_status : String
  create_orchestration_id : String
  ip_connection_string : Option String
  dns_connection_string : Option String
  external_ip : Option String
  delete_orchestration_id : Option String
  instance_actor_orchestration_id : Option String
  message : Option String
  deriving DecidableEq, Repr

/-- One row of toygres_cms.instance_events (the append-only audit table). -/
structure InstanceEvent where
  instance_id : Nat
  event_type : String
  old_state : String
  new_state : String
  message : Option String
  deriving DecidableEq, Repr

/-- The catalog state: the instances table plus the instance_events table. -/
structure Cms where
  instances : List InstanceRow
  events : List InstanceEvent
  deriving DecidableEq, Repr

/-- SQL pattern match against LIKE pattern __deleted_% (underscore is a
single-character wildcard in LIKE): the string has at least 10 characters and
characters 2 through 8 spell "deleted".  Used by create_instance_record.rs in
its conflict-inspection query, and, modelled from the spec (section 6.4, the
schema SQL is not under src/), as the condition of the partial unique index
idx_instances_dns_name_unique. -/
def likeDeletedPattern (s : String) : Bool :=
  let l := s.toList
  decide (10 ≤ l.length) && ((l.drop 2).take 7 == "deleted".toList)

/-! ## CMS activities (activities/cms/*.rs)

Each activity is a function from its input and the catalog state to the new
catalog state and its result.  A sqlx query on the open pool or transaction is
embedded by its effect on the catalog; infrastructure failures (pool, network)
are external faults outside the embedding.  NOW() timestamps are dropped with
the timestamp columns. -/

/-- update_instance_state.rs: lock the row by k8s_name; if absent, roll back
and report updated=false (a success, not an error); otherwise write the new
state and COALESCE in the optional columns, and, if the state changed, append
a state_change InstanceEvent carrying the input message. -/
def update_instance_state_activity (input : UpdateInstanceStateInput) (cms : Cms) :
    Cms × Except String UpdateInstanceStateOutput :=
  match cms.instances.find? (fun r => r.k8s_name == input.k8s_name) with
  | none => (cms, .ok ⟨false, none⟩)
  | some row =>
    let instances' := cms.instances.map fun r =>
      if r.id == row.id then
        { r with
          state := input.state
          ip_connection_string := coalesce input.ip_connection_string r.ip_connection_string
          dns_connection_string := coalesce input.dns_connection_string r.dns_connection_string
          external_ip := coalesce input.external_ip r.external_ip
          delete_orchestration_id := coalesce input.delete_orchestration_id r.delete_orchestration_id }
      else r
    let events' :=
      if row.state != input.state then
        cms.events ++ [⟨row.id, "state_change", row.state, input.state, input.message⟩]
      else cms.events
    (⟨instances', events'⟩, .ok ⟨true, some row.state⟩)

/-- update_instance_health.rs: UPDATE health_status WHERE k8s_name matches AND
state = running; updated reports whether any row was affected. -/
def update_instance_health_activity (input : UpdateInstanceHealthInput) (cms : Cms) :
    Cms × UpdateInstanceHealthOutput :=
  let touched := fun r : InstanceRow => r.k8s_name == input.k8s_name && r.state == "running"
  let instances' := cms.instances.map fun r =>
    if touched r then { r with health_status := input.health_status } else r
  ({ cms with instances := instances' }, ⟨cms.instances.any touched⟩)

/-- free_dns_name.rs: fetch the dns_name of the row by k8s_name; report freed=false
when the row is missing, the name is null, or it already starts with
__deleted_; otherwise prepend __deleted_ (SQL CONCAT) and report freed=true. -/
def free_dns_name_activity (input : FreeDnsNameInput) (cms : Cms) :
    Cms × FreeDnsNameOutput :=
  match cms.instances.find? (fun r => r.k8s_name == input.k8s_name) with
  | none => (cms, ⟨false⟩)
  | some row =>
    match row.dns_name with
    | none => (cms, ⟨false⟩)
    | some existing =>
      if strStartsWith existing "__deleted_" then (cms, ⟨false⟩)
      else
        let instances' := cms.instances.map fun r =>
          if r.k8s_name == input.k8s_name then
            { r with dns_name := some ("__deleted_" ++ r.dns_name.getD "") }
          else r
        ({ cms with instances := instances' }, ⟨true⟩)

/-- create_instance_record.rs: INSERT with state=creating, ON CONFLICT
(k8s_name) DO UPDATE the configuration columns guarded by matching
create_orchestration_id.  The embedded branches:
* a row with the same k8s_name exists and was written by the same
  orchestration: update it in place (replay idempotence), return its id;
* a row with the same k8s_name exists under a different orchestration: the
  guarded upsert returns no row, the activity fails;
* no such row, but the INSERT violates the partial unique dns index (some row
  holds the same non-__deleted_ dns_name): inspect the conflict among rows in
  state creating/running — same orchestration succeeds with the id of that row,
  a different owner fails with the reservation message, an untracked conflict
  fails with a retry message; nothing is committed on the failing branches;
* otherwise commit a fresh row (its id, DB-generated, is the newId argument).
A dns violation raised out of the guarded upsert itself (same k8s_name row
and a third row holding the dns name) is a corner this model folds into the
upsert branch. -/
def create_instance_record_activity (input : CreateInstanceRecordInput) (newId : Nat)
    (cms : Cms) : Cms × Except String CreateInstanceRecordOutput :=
  match cms.instances.find? (fun r => r.k8s_name == input.k8s_name) with
  | some row =>
    if row.create_orchestration_id == input.orchestration_id then
      let instances' := cms.instances.map fun r =>
        if r.k8s_name == input.k8s_name then
          { r with
            user_name := input.user_name
            namespace_ := input.namespace_
            postgres_version := input.postgres_version
            storage_size_gb := input.storage_size_gb
            use_load_balancer := input.use_load_balancer
            dns_name := input.dns_name }
        else r
      ({ cms with instances := instances' }, .ok ⟨row.id⟩)
    else
      (cms, .error "CMS insert did not return a record")
  | none =>
    let violates :=
      match input.dns_name with
      | some d => !likeDeletedPattern d && cms.instances.any (fun r => r.dns_name == some d)
      | none => false
    if violates then
      match input.dns_name with
      | none => (cms, .error "DNS conflict detected but DNS name missing from input")
      | some d =>
        match cms.instances.find? (fun r =>
            r.dns_name == some d && !likeDeletedPattern d &&
            (r.state == "creating" || r.state == "running")) with
        | some row =>
          if row.create_orchestration_id == input.orchestration_id then
            (cms, .ok ⟨row.id⟩)
          else
            (cms, .error ("DNS name \x27" ++ d ++ "\x27 is already reserved by instance \x27" ++
              row.k8s_name ++ "\x27 (user: " ++ row.user_name ++ ")"))
        | none => (cms, .error "DNS name conflict detected but record was not found. Please retry.")
    else
      ({ cms with instances := cms.instances ++
          [⟨newId, input.user_name, input.k8s_name, input.namespace_, input.postgres_version,
            input.storage_size_gb, input.use_load_balancer, input.dns_name, "creating",
            "unknown", input.orchestration_id, none, none, none, none, none, none⟩] },
        .ok ⟨newId⟩)

/-! ## Kubernetes delete activity (delete_postgres.rs, k8s_client.rs)

The activity touches exactly three cluster resources derived from its input:
Service {name}-svc, StatefulSet {name}, PVC {name}-pvc, all in the input
namespace.  The world is the existence state of those three resources; a
delete of an absent resource is the 404 the code treats as success.  Other
Kubernetes API failures are external faults outside the embedding. -/

structure K8sWorld where
  serviceExists : Bool
  statefulSetExists : Bool
  pvcExists : Bool
  deriving DecidableEq, Repr

inductive KStep where
  | checkStatefulSet
  | deleteService
  | deleteStatefulSet
  | pausePodTermination
  | deletePvc
  deriving DecidableEq, Repr

/-- k8s_client.rs check_resources_exist: a GET on the StatefulSet of the
instance name — and only on the StatefulSet. -/
def check_resources_exist (w : K8sWorld) : Bool :=
  w.statefulSetExists

/-- delete_postgres.rs: if check_resources_exist is false, report
deleted=false and do nothing; otherwise delete Service, StatefulSet, then
(after a 5 s sleep for pod termination) the PVC, each treating 404 as
success, and report deleted=true. -/
def delete_postgres_activity (w : K8sWorld) :
    K8sWorld × List KStep × DeletePostgresOutput :=
  if !check_resources_exist w then
    (w, [KStep.checkStatefulSet], ⟨false⟩)
  else
    (⟨false, false, false⟩,
     [KStep.checkStatefulSet, KStep.deleteService, KStep.deleteStatefulSet,
      KStep.pausePodTermination, KStep.deletePvc],
     ⟨true⟩)

/-! ## Orchestration names (names.rs) -/

def INSTANCE_ACTOR_NAME : String := "toygres-orchestrations::orchestration::instance-actor"

def DELETE_INSTANCE_NAME : String := "toygres-orchestrations::orchestration::delete-instance"

/-! ## DeleteInstance orchestration (orchestrations/delete_instance.rs)

The environment carries the result each awaited activity resolves to, as a
function of the activity input (the data replay reads back from history).
The orchestration returns the ordered list of scheduling decisions it emits
and its final result. -/

structure DeleteEnv where
  getInstanceByK8sName : GetInstanceByK8sNameInput → Except String GetInstanceByK8sNameOutput
  updateInstanceState : UpdateInstanceStateInput → Except String UpdateInstanceStateOutput
  deletePostgres : DeletePostgresInput → Except String DeletePostgresOutput
  raiseEvent : RaiseEventInput → Except String RaiseEventOutput
  deleteInstanceRecord : DeleteInstanceRecordInput → Except String DeleteInstanceRecordOutput
  freeDnsName : FreeDnsNameInput → Except String FreeDnsNameOutput

inductive DStep where
  | getInstanceByK8sName (inp : GetInstanceByK8sNameInput)
  | updateInstanceState (inp : UpdateInstanceStateInput)
  | deletePostgres (inp : DeletePostgresInput)
  | raiseEvent (inp : RaiseEventInput)
  | deleteInstanceRecord (inp : DeleteInstanceRecordInput)
  | freeDnsName (inp : FreeDnsNameInput)
  deriving DecidableEq, Repr

/-- delete_instance.rs update_cms_state helper: schedules the state update
and swallows its error (trace_warn only), so only the step remains. -/
def delete_update_cms_state (inp : UpdateInstanceStateInput) : List DStep :=
  [DStep.updateInstanceState inp]

/-- delete_instance.rs free_dns_name helper: best-effort, error swallowed. -/
def delete_free_dns_name (k8s_name : String) : List DStep :=
  [DStep.freeDnsName ⟨k8s_name⟩]

/-- delete_instance.rs delete_cms_record helper: best-effort, error
swallowed. -/
def delete_cms_record (k8s_name : String) : List DStep :=
  [DStep.deleteInstanceRecord ⟨k8s_name⟩]

/-- delete_instance_orchestration: look up the CMS record, mark deleting when
found, delete the Kubernetes resources, signal the instance actor when its id
was recorded (best-effort), mark deleted, drop the CMS record, free the DNS
name, and return the delete outcome. -/
def delete_instance_orchestration (env : DeleteEnv) (input : DeleteInstanceInput) :
    List DStep × Except String DeleteInstanceOutput :=
  let namespace_ := input.namespace_.getD "toygres"
  let lookupInp : GetInstanceByK8sNameInput := ⟨input.name⟩
  match env.getInstanceByK8sName lookupInp with
  | .error e => ([DStep.getInstanceByK8sName lookupInp],
      .error ("Failed to query CMS record: " ++ e))
  | .ok cms_record =>
    let instance_actor_id := cms_record.instance_actor_orchestration_id
    let markDeleting :=
      if cms_record.found then
        delete_update_cms_state
          ⟨input.name, "deleting", none, none, none, some input.orchestration_id,
           some "Deletion requested"⟩
      else []
    let delete_input : DeletePostgresInput := ⟨namespace_, input.name⟩
    match env.deletePostgres delete_input with
    | .error e =>
        (DStep.getInstanceByK8sName lookupInp :: markDeleting ++
          [DStep.deletePostgres delete_input], .error e)
    | .ok delete_output =>
      let signalActor :=
        match instance_actor_id with
        | some actor_id =>
          -- the raise result is matched for tracing only; failure is not fatal
          [DStep.raiseEvent ⟨actor_id, "InstanceDeleted", "\x7b\x7d"⟩]
        | none => []
      let markDeleted := delete_update_cms_state
        ⟨input.name, "deleted", none, none, none, some input.orchestration_id,
         some ("Deleted (resources deleted: " ++ toString delete_output.deleted ++ ")")⟩
      (DStep.getInstanceByK8sName lookupInp :: markDeleting ++
         [DStep.deletePostgres delete_input] ++ signalActor ++ markDeleted ++
         delete_cms_record input.name ++ delete_free_dns_name input.name,
       .ok ⟨input.name, delete_output.deleted⟩)

/-! ## InstanceActor orchestration (orchestrations/instance_actor.rs)

The step language has a wait-external-event constructor so that properties
about waiting on events are statable; the embedded actor never emits it,
because the source schedules no event wait.  utcnow_ms is read at two call
sites, each reached at most once, so the environment carries one value per
site. -/

structure ActorEnv where
  getInstanceConnection : GetInstanceConnectionInput → Except String GetInstanceConnectionOutput
  utcnowStartMs : Except String Int
  utcnowEndMs : Except String Int
  testConnection : TestConnectionInput → Except String TestConnectionOutput
  recordHealthCheck : RecordHealthCheckInput → Except String RecordHealthCheckOutput
  updateInstanceHealth : UpdateInstanceHealthInput → Except String UpdateInstanceHealthOutput

inductive AStep where
  | getInstanceConnection (inp : GetInstanceConnectionInput)
  | testConnection (inp : TestConnectionInput)
  | recordHealthCheck (inp : RecordHealthCheckInput)
  | updateInstanceHealth (inp : UpdateInstanceHealthInput)
  | timer (ms : Nat)
  | waitExternalEvent (name : String)
  | continueAsNew (inp : InstanceActorInput)
  deriving DecidableEq, Repr

/-- instance_actor_orchestration: one iteration.  Look up the connection; a
missing CMS record completes the execution; a record without a connection
string sleeps 30 s and continues-as-new; otherwise probe the database, record
the health check, update the row health, sleep 30 s and continue-as-new with
the same input. -/
def instance_actor_orchestration (env : ActorEnv) (input : InstanceActorInput) :
    List AStep × Except String Unit :=
  let connInp : GetInstanceConnectionInput := ⟨input.k8s_name⟩
  match env.getInstanceConnection connInp with
  | .error e => ([AStep.getInstanceConnection connInp],
      .error ("Failed to get instance connection: " ++ e))
  | .ok conn_info =>
    if !conn_info.found then
      ([AStep.getInstanceConnection connInp], .ok ())
    else
      -- states deleting/deleted only emit traces; monitoring continues
      match conn_info.connection_string with
      | none =>
        ([AStep.getInstanceConnection connInp, AStep.timer 30000,
          AStep.continueAsNew input], .ok ())
      | some connection_string =>
        match env.utcnowStartMs with
        | .error e => ([AStep.getInstanceConnection connInp],
            .error ("Failed to get start time: " ++ e))
        | .ok start_time_ms =>
          let testInp : TestConnectionInput := ⟨connection_string⟩
          let health_result := env.testConnection testInp
          match env.utcnowEndMs with
          | .error e => ([AStep.getInstanceConnection connInp, AStep.testConnection testInp],
              .error ("Failed to get end time: " ++ e))
          | .ok end_time_ms =>
            let response_time_ms : Int := end_time_ms - start_time_ms
            let statusTriple :=
              match health_result with
              | .ok output => ("healthy", some output.version, (none : Option String))
              | .error e => ("unhealthy", none, some e)
            let recInp : RecordHealthCheckInput :=
              ⟨input.k8s_name, statusTriple.1, statusTriple.2.1,
               some response_time_ms, statusTriple.2.2⟩
            match env.recordHealthCheck recInp with
            | .error e =>
                ([AStep.getInstanceConnection connInp, AStep.testConnection testInp,
                  AStep.recordHealthCheck recInp],
                 .error ("Failed to record health check: " ++ e))
            | .ok _ =>
              let updInp : UpdateInstanceHealthInput := ⟨input.k8s_name, statusTriple.1⟩
              match env.updateInstanceHealth updInp with
              | .error e =>
                  ([AStep.getInstanceConnection connInp, AStep.testConnection testInp,
                    AStep.recordHealthCheck recInp, AStep.updateInstanceHealth updInp],
                   .error ("Failed to update instance health: " ++ e))
              | .ok _ =>
                  ([AStep.getInstanceConnection connInp, AStep.testConnection testInp,
                    AStep.recordHealthCheck recInp, AStep.updateInstanceHealth updInp,
                    AStep.timer 30000, AStep.continueAsNew input],
                   .ok ())

/-! ## CreateInstance orchestration (orchestrations/create_instance.rs)

utcnow is read at three call sites (start, on readiness break, after the
loop), each reached at most once per execution, so the environment carries
one value per site; times are milliseconds.  The readiness probe is scheduled
once per loop attempt, so its oracle also takes the attempt number.  The two
retry-wrapped activities resolve, after the runtime-internal retries, to the
single value their oracle supplies. -/

structure CreateEnv where
  utcnowStart : Except String Nat
  utcnowBreak : Except String Nat
  utcnowEnd : Except String Nat
  createInstanceRecord : CreateInstanceRecordInput → Except String CreateInstanceRecordOutput
  deployPostgres : DeployPostgresInput → Except String DeployPostgresOutput
  waitForReady : Nat → WaitForReadyInput → Except String WaitForReadyOutput
  getConnectionStrings : GetConnectionStringsInput → Except String GetConnectionStringsOutput
  testConnection : TestConnectionInput → Except String TestConnectionOutput
  updateInstanceState : UpdateInstanceStateInput → Except String UpdateInstanceStateOutput
  recordInstanceActor : RecordInstanceActorInput → Except String RecordInstanceActorOutput
  freeDnsName : FreeDnsNameInput → Except String FreeDnsNameOutput
  deleteInstanceSub : DeleteInstanceInput → Except String DeleteInstanceOutput

inductive CStep where
  | createInstanceRecord (inp : CreateInstanceRecordInput)
  | deployPostgres (inp : DeployPostgresInput)
  | waitForReady (inp : WaitForReadyInput)
  | timer (ms : Nat)
  | getConnectionStrings (inp : GetConnectionStringsInput)
  | testConnection (inp : TestConnectionInput)
  | updateInstanceState (inp : UpdateInstanceStateInput)
  | scheduleOrchestration (name instanceId : String) (inp : InstanceActorInput)
  | recordInstanceActor (inp : RecordInstanceActorInput)
  | freeDnsName (inp : FreeDnsNameInput)
  | subDeleteInstance (inp : DeleteInstanceInput)
  deriving DecidableEq, Repr

/-- SystemTime::duration_since, in milliseconds: fails when the end point is
earlier than the start point. -/
def durationSinceMs (endMs startMs : Nat) : Except String Nat :=
  if endMs < startMs then .error "second time provided was later than self"
  else .ok (endMs - startMs)

/-- The readiness loop of create_instance_impl (for attempt in 1..=max):
probe the pod; on ready read the wall clock and the elapsed time (either can
fail the body) and break; at the last attempt fail with the timeout message;
otherwise sleep 5 s (a durable timer) and try again. -/
def readinessLoop (env : CreateEnv) (startTime : Nat) (namespace_ name : String)
    (maxAttempts attempt : Nat) : List CStep × Except String Unit :=
  let wait_input : WaitForReadyInput := ⟨namespace_, name, 0⟩
  match env.waitForReady attempt wait_input with
  | .error e => ([CStep.waitForReady wait_input],
      .error ("Failed to check pod status: " ++ e))
  | .ok wait_output =>
    if wait_output.is_ready then
      match env.utcnowBreak with
      | .error e => ([CStep.waitForReady wait_input],
          .error ("Failed to get end time: " ++ e))
      | .ok end_time =>
        match durationSinceMs end_time startTime with
        | .error e => ([CStep.waitForReady wait_input],
            .error ("Failed to calculate duration: " ++ e))
        | .ok _ => ([CStep.waitForReady wait_input], .ok ())
    else if maxAttempts ≤ attempt then
      ([CStep.waitForReady wait_input],
       .error ("Timeout: Pod still in phase \x27" ++ wait_output.pod_phase ++ "\x27 after " ++
         toString maxAttempts ++ " attempts"))
    else
      let rest := readinessLoop env startTime namespace_ name maxAttempts (attempt + 1)
      (CStep.waitForReady wait_input :: CStep.timer 5000 :: rest.1, rest.2)
termination_by maxAttempts + 1 - attempt
decreasing_by
  omega

/-- create_instance_impl: deploy, wait for readiness (60 attempts, 5 s
apart), build connection strings (with runtime-level retry), probe the
database (with runtime-level retry), and assemble the success output. -/
def create_instance_impl (env : CreateEnv) (input : CreateInstanceInput)
    (namespace_ postgres_version : String) (storage_size_gb : Int)
    (use_load_balancer : Bool) : List CStep × Except String CreateInstanceOutput :=
  match env.utcnowStart with
  | .error e => ([], .error ("Failed to get start time: " ++ e))
  | .ok start_time =>
    let deploy_input : DeployPostgresInput :=
      ⟨namespace_, input.name, input.password, postgres_version, storage_size_gb,
       use_load_balancer, input.dns_label⟩
    match env.deployPostgres deploy_input with
    | .error e => ([CStep.deployPostgres deploy_input], .error e)
    | .ok _deploy_output =>
      let loopRes := readinessLoop env start_time namespace_ input.name 60 1
      let pre := CStep.deployPostgres deploy_input :: loopRes.1
      match loopRes.2 with
      | .error e => (pre, .error e)
      | .ok _ =>
        match env.utcnowEnd with
        | .error e => (pre, .error ("Failed to get end time: " ++ e))
        | .ok end_time =>
          match durationSinceMs end_time start_time with
          | .error e => (pre, .error ("Failed to calculate duration: " ++ e))
          | .ok elapsed_ms =>
            let deployment_time := elapsed_ms / 1000
            let conn_input : GetConnectionStringsInput :=
              ⟨namespace_, input.name, input.password, use_load_balancer, input.dns_label⟩
            match env.getConnectionStrings conn_input with
            | .error e => (pre ++ [CStep.getConnectionStrings conn_input], .error e)
            | .ok conn_output =>
              let test_connection_string :=
                conn_output.dns_connection_string.getD conn_output.ip_connection_string
              let test_input : TestConnectionInput := ⟨test_connection_string⟩
              match env.testConnection test_input with
              | .error e =>
                  (pre ++ [CStep.getConnectionStrings conn_input,
                    CStep.testConnection test_input], .error e)
              | .ok test_output =>
                  (pre ++ [CStep.getConnectionStrings conn_input,
                    CStep.testConnection test_input],
                   .ok ⟨input.name, namespace_, conn_output.ip_connection_string,
                     conn_output.dns_connection_string, conn_output.external_ip,
                     conn_output.dns_name, test_output.version, deployment_time⟩)

/-- create_instance.rs update_cms_state helper: best-effort, error
swallowed. -/
def create_update_cms_state (inp : UpdateInstanceStateInput) : List CStep :=
  [CStep.updateInstanceState inp]

/-- start_instance_actor: schedule the detached InstanceActor orchestration
under the deterministic id actor-k8s_name and record that id in the CMS
(best-effort). -/
def start_instance_actor (k8s_name namespace_ : String) : List CStep :=
  let actor_id := "actor-" ++ k8s_name
  [CStep.scheduleOrchestration INSTANCE_ACTOR_NAME actor_id ⟨k8s_name, namespace_, actor_id⟩,
   CStep.recordInstanceActor ⟨k8s_name, actor_id⟩]

/-- mark_instance_failed: write state=failed with the error as message, then
free the DNS name; both best-effort. -/
def mark_instance_failed_steps (k8s_name error : String) : List CStep :=
  create_update_cms_state ⟨k8s_name, "failed", none, none, none, none, some error⟩ ++
    [CStep.freeDnsName ⟨k8s_name⟩]

/-- The UpdateInstanceStateInput mark_instance_failed constructs. -/
def mark_instance_failed_input (k8s_name error : String) : UpdateInstanceStateInput :=
  ⟨k8s_name, "failed", none, none, none, none, some error⟩

/-- cleanup_on_failure: run DeleteInstance as a sub-orchestration under a
cleanup-scoped id; the caller swallows its error. -/
def cleanup_on_failure_steps (namespace_ instance_name : String) : List CStep :=
  [CStep.subDeleteInstance ⟨instance_name, some namespace_, "cleanup-" ++ instance_name⟩]

/-- create_instance_orchestration: resolve the optional inputs to their
defaults, reserve the CMS record (fatal on failure), run the body, and on
success mark running and start the actor, on failure mark failed and clean
up through the DeleteInstance sub-orchestration. -/
def create_instance_orchestration (env : CreateEnv) (input : CreateInstanceInput) :
    List CStep × Except String CreateInstanceOutput :=
  let namespace_ := input.namespace_.getD "toygres"
  let postgres_version := input.postgres_version.getD "18"
  let storage_size_gb := input.storage_size_gb.getD 10
  let use_load_balancer := input.use_load_balancer.getD true
  let cms_input : CreateInstanceRecordInput :=
    ⟨input.user_name, input.name, namespace_, postgres_version, storage_size_gb,
     use_load_balancer, input.dns_label, input.orchestration_id⟩
  match env.createInstanceRecord cms_input with
  | .error e => ([CStep.createInstanceRecord cms_input], .error e)
  | .ok _ =>
    let implRes := create_instance_impl env input namespace_ postgres_version
      storage_size_gb use_load_balancer
    match implRes.2 with
    | .ok output =>
        (CStep.createInstanceRecord cms_input :: implRes.1 ++
          create_update_cms_state
            ⟨input.name, "running", some output.ip_connection_string,
             output.dns_connection_string, output.external_ip, none,
             some ("Instance ready in " ++ toString output.deployment_time_seconds ++
               " seconds")⟩ ++
          start_instance_actor input.name namespace_,
         .ok output)
    | .error e =>
        (CStep.createInstanceRecord cms_input :: implRes.1 ++
          mark_instance_failed_steps input.name e ++
          cleanup_on_failure_steps namespace_ input.name,
         .error e)

/-! ## Helper lemmas -/

theorem listPrefix_refl_append (l t : List Char) : listPrefix l (l ++ t) = true := by
  induction l with
  | nil => rfl
  | cons a as ih => simp [listPrefix, ih]

theorem listInfix_refl_append (l t : List Char) : listInfix l (l ++ t) = true := by
  cases l with
  | nil =>
    cases t with
    | nil => rfl
    | cons c rest => simp [listInfix, listPrefix]
  | cons a as =>
    have h : listPrefix (a :: as) ((a :: as) ++ t) = true := listPrefix_refl_append (a :: as) t
    simp only [listInfix, Bool.or_eq_true]
    exact Or.inl h

theorem strData_append (s t : String) : (s ++ t).toList = s.toList ++ t.toList := by
  cases s; cases t; rfl

theorem strStartsWith_append (p s : String) : strStartsWith (p ++ s) p = true := by
  unfold strStartsWith
  rw [strData_append]
  exact listPrefix_refl_append p.toList s.toList

theorem strContains_append_self (s t : String) : strContains (s ++ t) s = true := by
  unfold strContains
  rw [strData_append]
  exact listInfix_refl_append s.toList t.toList

theorem strAppend_assoc (a b c : String) : a ++ b ++ c = a ++ (b ++ c) := by
  apply String.ext
  show (a ++ b ++ c).toList = (a ++ (b ++ c)).toList
  rw [strData_append, strData_append, strData_append, strData_append, List.append_assoc]

/-- find? commutes with a map that leaves the predicate value unchanged. -/
theorem find?_map_invariant {α : Type} (f : α → α) (p : α → Bool)
    (h : ∀ a, p (f a) = p a) (l : List α) :
    (l.map f).find? p = (l.find? p).map f := by
  induction l with
  | nil => rfl
  | cons a as ih =>
    simp only [List.map, List.find?]
    rw [h a]
    cases hp : p a <;> simp [ih]

/-! ## Demo fixtures -/

def emptyCms : Cms := ⟨[], []⟩

def actorDemoInput : InstanceActorInput :=
  ⟨"mydb-0a1b2c3d", "toygres", "actor-mydb-0a1b2c3d"⟩

/-- An environment for one InstanceActor iteration in which the instance is
found running with a connection string and every activity succeeds, while an
InstanceDeleted signal has been raised at the instance (the raise appends an
ExternalEventRaised record; whether the actor sees it depends solely on
whether it ever subscribes to the event). -/
def actorHealthyEnv : ActorEnv where
  getInstanceConnection := fun _ =>
    .ok ⟨true, some "postgresql://postgres:pw@10.0.0.5:5432/postgres", some "running"⟩
  utcnowStartMs := .ok 1000
  utcnowEndMs := .ok 1005
  testConnection := fun _ => .ok ⟨"PostgreSQL 18.0", true⟩
  recordHealthCheck := fun _ => .ok ⟨true, 1⟩
  updateInstanceHealth := fun _ => .ok ⟨true⟩

/-- True on the event-wait step constructor. -/
def isWaitExternalEvent : AStep → Bool
  | .waitExternalEvent _ => true
  | _ => false

/-! ## Claim theorems -/

/-- C1: the source InstanceActor iteration, evaluated at an execution that
performs a health check, never emits a wait on the external event
InstanceDeleted: its decision list is probe, record, update, a 30-second
timer, then continue-as-new with the same input, and the execution ends in
continue-as-new (a further actor execution) rather than completing on the
event.  This contradicts the claimed timer-versus-event race (which the
flow diagram that the repository itself ships in flows.rs documents, and for which
delete_instance.rs raises the InstanceDeleted event). -/
theorem instance_actor_no_event_race :
    instance_actor_orchestration actorHealthyEnv actorDemoInput =
      ([AStep.getInstanceConnection ⟨"mydb-0a1b2c3d"⟩,
        AStep.testConnection ⟨"postgresql://postgres:pw@10.0.0.5:5432/postgres"⟩,
        AStep.recordHealthCheck
          ⟨"mydb-0a1b2c3d", "healthy", some "PostgreSQL 18.0", some 5, none⟩,
        AStep.updateInstanceHealth ⟨"mydb-0a1b2c3d", "healthy"⟩,
        AStep.timer 30000, AStep.continueAsNew actorDemoInput], .ok ()) ∧
    ((instance_actor_orchestration actorHealthyEnv actorDemoInput).1.all
        (fun s => !isWaitExternalEvent s)) = true := by
  constructor
  · rfl
  · rfl

/-- C4 (amended): the K8s delete activity checks only the StatefulSet for
existence; when it exists the activity deletes Service, StatefulSet, then
(after the termination pause) the PVC, in that order, each treating 404 as
success, and reports deleted=true; when it does not exist the activity
deletes nothing and reports deleted=false — so deleted=true holds iff the
StatefulSet existed, not iff any of the three resources existed. -/
theorem delete_postgres_deleted_iff_statefulset (w : K8sWorld) :
    delete_postgres_activity w =
      (if w.statefulSetExists then (⟨false, false, false⟩ : K8sWorld) else w,
       if w.statefulSetExists then
         [KStep.checkStatefulSet, KStep.deleteService, KStep.deleteStatefulSet,
          KStep.pausePodTermination, KStep.deletePvc]
       else [KStep.checkStatefulSet],
       ⟨w.statefulSetExists⟩) := by
  unfold delete_postgres_activity check_resources_exist
  cases h : w.statefulSetExists <;> simp [h]

/-- C4 counterexample: a Service exists but the StatefulSet does not; the
claim says deleted=true (a resource existed), yet the activity reports
deleted=false and leaves the Service in place. -/
theorem delete_postgres_service_only_counterexample :
    (⟨true, false, false⟩ : K8sWorld).serviceExists = true ∧
    (delete_postgres_activity ⟨true, false, false⟩).2.2.deleted = false ∧
    (delete_postgres_activity ⟨true, false, false⟩).1.serviceExists = true ∧
    (delete_postgres_activity ⟨true, false, false⟩).2.2.deleted ≠ true := by
  decide

/-- C7: when no catalog row matches the input k8s_name, the Update State
activity returns updated=false as a successful result (not an error) and
leaves the catalog unchanged. -/
theorem update_state_missing_row_not_error (input : UpdateInstanceStateInput) (cms : Cms)
    (h : cms.instances.find? (fun r => r.k8s_name == input.k8s_name) = none) :
    update_instance_state_activity input cms = (cms, .ok ⟨false, none⟩) := by
  unfold update_instance_state_activity
  rw [h]

theorem update_state_missing_row_not_error_witness :
    (emptyCms.instances.find? (fun r => r.k8s_name == ("mydb-0a1b2c3d" : String)) = none) ∧
    update_instance_state_activity
        ⟨"mydb-0a1b2c3d", "running", none, none, none, none, none⟩ emptyCms =
      (emptyCms, .ok ⟨false, none⟩) :=
  ⟨rfl, update_state_missing_row_not_error
    ⟨"mydb-0a1b2c3d", "running", none, none, none, none, none⟩ emptyCms rfl⟩

/-- C9: the Update Health activity modifies health_status only on rows whose
state is running: every row in another state is returned unchanged at its
position; updated=true holds iff some row matches the k8s_name in state
running; and when no such row exists the whole catalog is unchanged and the
activity reports updated=false. -/
theorem update_health_only_running (input : UpdateInstanceHealthInput) (cms : Cms) :
    (∀ i r, cms.instances.get? i = some r → r.state ≠ "running" →
       (update_instance_health_activity input cms).1.instances.get? i = some r) ∧
    ((update_instance_health_activity input cms).2.updated = true ↔
       ∃ r ∈ cms.instances, r.k8s_name = input.k8s_name ∧ r.state = "running") ∧
    ((∀ r ∈ cms.instances, ¬ (r.k8s_name = input.k8s_name ∧ r.state = "running")) →
       (update_instance_health_activity input cms).1 = cms ∧
       (update_instance_health_activity input cms).2.updated = false) := by
  unfold update_instance_health_activity
  refine ⟨?_, ?_, ?_⟩
  · intro i r hir hstate
    simp only [List.get?_map, hir, Option.map_some']
    have hst : (r.state == "running") = false := by
      simpa using hstate
    simp only [hst, Bool.and_false]
    simp
  · simp only [List.any_eq_true, Bool.and_eq_true, beq_iff_eq]
  · intro hnone
    have hmap : cms.instances.map (fun r =>
        if r.k8s_name == input.k8s_name && r.state == "running" then
          { r with health_status := input.health_status } else r) = cms.instances := by
      have := List.map_congr_left (l := cms.instances)
        (f := fun r : InstanceRow =>
          if r.k8s_name == input.k8s_name && r.state == "running" then
            { r with health_status := input.health_status } else r)
        (g := id) ?_
      · simpa using this
      · intro r hr
        have hno := hnone r hr
        have hcond : (r.k8s_name == input.k8s_name && r.state == "running") = false := by
          by_contra hc
          rw [Bool.not_eq_false, Bool.and_eq_true, beq_iff_eq, beq_iff_eq] at hc
          exact hno hc
        simp [hcond]
    have hany : cms.instances.any
        (fun r => r.k8s_name == input.k8s_name && r.state == "running") = false := by
      rw [List.any_eq_false]
      intro r hr
      have hno := hnone r hr
      simp only [Bool.and_eq_true, beq_iff_eq, not_and]
      intro h1 h2
      exact hno ⟨h1, h2⟩
    constructor
    · show ({ cms with instances := _ } : Cms) = cms
      rw [hmap]
    · show (cms.instances.any _) = false
      exact hany

def c9row : InstanceRow :=
  ⟨7, "alice", "mydb-0a1b2c3d", "toygres", "18", 10, true, some "mydb",
   "creating", "unknown", "create-mydb-0a1b2c3d", none, none, none, none, none, none⟩

def c9cms : Cms := ⟨[c9row], []⟩

theorem update_health_only_running_witness :
    (update_instance_health_activity ⟨"mydb-0a1b2c3d", "healthy"⟩ c9cms).1.instances.get? 0 =
      some c9row ∧
    (update_instance_health_activity ⟨"mydb-0a1b2c3d", "healthy"⟩ c9cms).1 = c9cms ∧
    (update_instance_health_activity ⟨"mydb-0a1b2c3d", "healthy"⟩ c9cms).2.updated = false :=
  ⟨(update_health_only_running ⟨"mydb-0a1b2c3d", "healthy"⟩ c9cms).1 0 c9row rfl (by decide),
   ((update_health_only_running ⟨"mydb-0a1b2c3d", "healthy"⟩ c9cms).2.2 (by decide)).1,
   ((update_health_only_running ⟨"mydb-0a1b2c3d", "healthy"⟩ c9cms).2.2 (by decide)).2⟩

/-- C6: freeing the DNS name twice.  With a row holding a non-null dns_name
that does not carry the sentinel already, the first call reports freed=true
and renames the name to __deleted_ followed by the original; the second call
reports freed=false and changes nothing. -/
theorem free_dns_twice (input : FreeDnsNameInput) (cms : Cms) (row : InstanceRow) (d : String)
    (hfind : cms.instances.find? (fun r => r.k8s_name == input.k8s_name) = some row)
    (hdns : row.dns_name = some d)
    (hpref : strStartsWith d "__deleted_" = false) :
    (free_dns_name_activity input cms).2.freed = true ∧
    ((free_dns_name_activity input cms).1.instances.find?
        (fun r => r.k8s_name == input.k8s_name)).map (fun r => r.dns_name) =
      some (some ("__deleted_" ++ d)) ∧
    (free_dns_name_activity input ((free_dns_name_activity input cms).1)).2.freed = false ∧
    (free_dns_name_activity input ((free_dns_name_activity input cms).1)).1 =
      (free_dns_name_activity input cms).1 := by
  have hrow : (row.k8s_name == input.k8s_name) = true := by
    have h2 := List.find?_some hfind
    simpa using h2
  have hstep1 : free_dns_name_activity input cms =
      ({ cms with instances := cms.instances.map (fun r =>
          if r.k8s_name == input.k8s_name then
            { r with dns_name := some ("__deleted_" ++ r.dns_name.getD "") }
          else r) }, ⟨true⟩) := by
    simp only [free_dns_name_activity, hfind, hdns, hpref]
    simp
  have hpres : ∀ r : InstanceRow,
      ((if r.k8s_name == input.k8s_name then
          { r with dns_name := some ("__deleted_" ++ r.dns_name.getD "") }
        else r).k8s_name == input.k8s_name) = (r.k8s_name == input.k8s_name) := by
    intro r
    by_cases h : (r.k8s_name == input.k8s_name) = true
    · simp [h]
    · simp [h]
  have hfind1 : ((free_dns_name_activity input cms).1.instances.find?
      (fun r => r.k8s_name == input.k8s_name)) =
      some { row with dns_name := some ("__deleted_" ++ d) } := by
    rw [hstep1]
    show (cms.instances.map _).find? _ = _
    rw [find?_map_invariant _ _ hpres, hfind]
    simp only [Option.map_some', hrow, hdns]
    simp
  have hstarts : strStartsWith ("__deleted_" ++ d) "__deleted_" = true :=
    strStartsWith_append "__deleted_" d
  have hgen : ∀ cms1 : Cms, cms1.instances.find? (fun r => r.k8s_name == input.k8s_name) =
      some { row with dns_name := some ("__deleted_" ++ d) } →
      free_dns_name_activity input cms1 = (cms1, ⟨false⟩) := by
    intro cms1 h1
    simp only [free_dns_name_activity, h1, hstarts]
    simp
  have hstep2 : free_dns_name_activity input ((free_dns_name_activity input cms).1) =
      ((free_dns_name_activity input cms).1, ⟨false⟩) :=
    hgen _ hfind1
  refine ⟨?_, ?_, ?_, ?_⟩
  · rw [hstep1]
  · rw [hfind1]
    rfl
  · rw [hstep2]
  · rw [hstep2]

def c6row : InstanceRow :=
  ⟨3, "alice", "mydb-0a1b2c3d", "toygres", "18", 10, true, some "mydb",
   "deleting", "healthy", "create-mydb-0a1b2c3d", none, none, none, none, none, none⟩

def c6cms : Cms := ⟨[c6row], []⟩

theorem free_dns_twice_witness :
    (free_dns_name_activity ⟨"mydb-0a1b2c3d"⟩ c6cms).2.freed = true ∧
    ((free_dns_name_activity ⟨"mydb-0a1b2c3d"⟩ c6cms).1.instances.find?
        (fun r => r.k8s_name == ("mydb-0a1b2c3d" : String))).map (fun r => r.dns_name) =
      some (some ("__deleted_" ++ "mydb")) ∧
    (free_dns_name_activity ⟨"mydb-0a1b2c3d"⟩
        ((free_dns_name_activity ⟨"mydb-0a1b2c3d"⟩ c6cms).1)).2.freed = false ∧
    (free_dns_name_activity ⟨"mydb-0a1b2c3d"⟩
        ((free_dns_name_activity ⟨"mydb-0a1b2c3d"⟩ c6cms).1)).1 =
      (free_dns_name_activity ⟨"mydb-0a1b2c3d"⟩ c6cms).1 :=
  free_dns_twice ⟨"mydb-0a1b2c3d"⟩ c6cms c6row "mydb" rfl rfl (by decide)

def c8row : InstanceRow :=
  ⟨1, "alice", "mydb-0a1b2c3d", "toygres", "18", 10, true, some "mydb",
   "creating", "unknown", "create-mydb-0a1b2c3d", none, none, none, none, none, none⟩

def c8cms : Cms := ⟨[c8row], []⟩

/-- C8 counterexample: marking an instance failed with error message "probe
failed" leaves the message column of the catalog row untouched (none, not the
error string) even though the row reaches state failed; the string lands only
on the appended InstanceEvent. -/
theorem mark_failed_row_message_counterexample :
    ((update_instance_state_activity
        (mark_instance_failed_input "mydb-0a1b2c3d" "probe failed") c8cms).1.instances.map
      (fun r => (r.state, r.message))) = [("failed", none)] ∧
    ((update_instance_state_activity
        (mark_instance_failed_input "mydb-0a1b2c3d" "probe failed") c8cms).1.instances.map
      (fun r => r.message)) ≠ [some "probe failed"] ∧
    (update_instance_state_activity
        (mark_instance_failed_input "mydb-0a1b2c3d" "probe failed") c8cms).1.events =
      [⟨1, "state_change", "creating", "failed", some "probe failed"⟩] := by
  decide

/-- C8 (amended): when CreateInstance marks the instance failed with the
error string as message, the catalog row transitions to state failed with its
message column unwritten (no embedded statement writes instances.message),
while the error string is carried by the message of the state_change
InstanceEvent appended for the transition. -/
theorem mark_failed_message_on_event (cms : Cms) (k e : String) (row : InstanceRow)
    (hfind : cms.instances.find? (fun r => r.k8s_name == k) = some row)
    (hstate : row.state ≠ "failed") :
    (update_instance_state_activity (mark_instance_failed_input k e) cms).2 =
      .ok ⟨true, some row.state⟩ ∧
    (update_instance_state_activity (mark_instance_failed_input k e) cms).1.events =
      cms.events ++ [⟨row.id, "state_change", row.state, "failed", some e⟩] ∧
    (∀ i r, cms.instances.get? i = some r →
      ((update_instance_state_activity (mark_instance_failed_input k e) cms).1.instances.get?
          i).map (fun r2 => r2.message) = some r.message) := by
  have hne : (row.state != "failed") = true := by
    simpa [bne_iff_ne] using hstate
  have hstep : update_instance_state_activity (mark_instance_failed_input k e) cms =
      (⟨cms.instances.map (fun r =>
          if r.id == row.id then
            { r with
                state := "failed"
                ip_connection_string := coalesce none r.ip_connection_string
                dns_connection_string := coalesce none r.dns_connection_string
                external_ip := coalesce none r.external_ip
                delete_orchestration_id := coalesce none r.delete_orchestration_id }
          else r),
        cms.events ++ [⟨row.id, "state_change", row.state, "failed", some e⟩]⟩,
       .ok ⟨true, some row.state⟩) := by
    simp only [update_instance_state_activity, mark_instance_failed_input, hfind, hne]
    simp
  refine ⟨by rw [hstep], by rw [hstep], ?_⟩
  intro i r hir
  rw [hstep]
  show ((cms.instances.map _).get? i).map _ = _
  simp only [List.get?_map, hir, Option.map_some']
  by_cases h : (r.id == row.id) = true <;> simp [h]

def c8row2 : InstanceRow :=
  ⟨2, "bob", "otherdb-11112222", "toygres", "18", 10, true, some "otherdb",
   "running", "healthy", "create-otherdb-11112222", none, none, none, none, none, some "older"⟩

def c8cms2 : Cms := ⟨[c8row2], []⟩

theorem mark_failed_message_on_event_witness :
    (update_instance_state_activity
        (mark_instance_failed_input "otherdb-11112222" "boom") c8cms2).2 =
      .ok ⟨true, some "running"⟩ ∧
    (update_instance_state_activity
        (mark_instance_failed_input "otherdb-11112222" "boom") c8cms2).1.events =
      [] ++ [⟨2, "state_change", "running", "failed", some "boom"⟩] ∧
    (∀ i r, c8cms2.instances.get? i = some r →
      ((update_instance_state_activity
          (mark_instance_failed_input "otherdb-11112222" "boom") c8cms2).1.instances.get?
        i).map (fun r2 => r2.message) = some r.message) :=
  mark_failed_message_on_event c8cms2 "otherdb-11112222" "boom" c8row2 rfl (by decide)

/-- C2: whenever the initial catalog lookup of a DeleteInstance run resolves
with a recorded instance-actor orchestration id and the Kubernetes delete
resolves, the workflow schedules the raise-event activity for that actor
with event name InstanceDeleted and payload "\x7b\x7d" directly after the
Kubernetes delete step, and finishes with the success output no matter what
the raise-event activity returns (env.raiseEvent is unconstrained here, so a
raise failure cannot fail the workflow). -/
theorem delete_raises_instance_deleted (env : DeleteEnv) (input : DeleteInstanceInput)
    (out : GetInstanceByK8sNameOutput) (actor_id : String) (d : DeletePostgresOutput)
    (hlook : env.getInstanceByK8sName ⟨input.name⟩ = .ok out)
    (hactor : out.instance_actor_orchestration_id = some actor_id)
    (hdel : env.deletePostgres ⟨input.namespace_.getD "toygres", input.name⟩ = .ok d) :
    delete_instance_orchestration env input =
      (DStep.getInstanceByK8sName ⟨input.name⟩ ::
        (if out.found then
           [DStep.updateInstanceState ⟨input.name, "deleting", none, none, none,
              some input.orchestration_id, some "Deletion requested"⟩]
         else []) ++
        [DStep.deletePostgres ⟨input.namespace_.getD "toygres", input.name⟩,
         DStep.raiseEvent ⟨actor_id, "InstanceDeleted", "\x7b\x7d"⟩,
         DStep.updateInstanceState ⟨input.name, "deleted", none, none, none,
           some input.orchestration_id,
           some ("Deleted (resources deleted: " ++ toString d.deleted ++ ")")⟩,
         DStep.deleteInstanceRecord ⟨input.name⟩,
         DStep.freeDnsName ⟨input.name⟩],
       .ok ⟨input.name, d.deleted⟩) := by
  simp only [delete_instance_orchestration, delete_update_cms_state, delete_cms_record,
    delete_free_dns_name, hlook, hactor, hdel]
  cases out.found <;> simp

def c2delEnv : DeleteEnv where
  getInstanceByK8sName := fun _ =>
    .ok ⟨true, some ⟨9, "alice", "mydb-0a1b2c3d", "toygres", "running", some "mydb"⟩,
      some "actor-mydb-0a1b2c3d"⟩
  updateInstanceState := fun _ => .ok ⟨true, some "running"⟩
  deletePostgres := fun _ => .ok ⟨true⟩
  raiseEvent := fun _ => .error "raise failed: target not found"
  deleteInstanceRecord := fun _ => .ok ⟨true⟩
  freeDnsName := fun _ => .ok ⟨true⟩

def c2delInput : DeleteInstanceInput := ⟨"mydb-0a1b2c3d", none, "delete-mydb-0a1b2c3d"⟩

theorem delete_raises_instance_deleted_witness :
    delete_instance_orchestration c2delEnv c2delInput =
      (DStep.getInstanceByK8sName ⟨c2delInput.name⟩ ::
        (if (true : Bool) then
           [DStep.updateInstanceState ⟨c2delInput.name, "deleting", none, none, none,
              some c2delInput.orchestration_id, some "Deletion requested"⟩]
         else []) ++
        [DStep.deletePostgres ⟨c2delInput.namespace_.getD "toygres", c2delInput.name⟩,
         DStep.raiseEvent ⟨"actor-mydb-0a1b2c3d", "InstanceDeleted", "\x7b\x7d"⟩,
         DStep.updateInstanceState ⟨c2delInput.name, "deleted", none, none, none,
           some c2delInput.orchestration_id,
           some ("Deleted (resources deleted: " ++ toString true ++ ")")⟩,
         DStep.deleteInstanceRecord ⟨c2delInput.name⟩,
         DStep.freeDnsName ⟨c2delInput.name⟩],
       .ok ⟨c2delInput.name, true⟩) :=
  delete_raises_instance_deleted c2delEnv c2delInput
    ⟨true, some ⟨9, "alice", "mydb-0a1b2c3d", "toygres", "running", some "mydb"⟩,
      some "actor-mydb-0a1b2c3d"⟩
    "actor-mydb-0a1b2c3d" ⟨true⟩ rfl rfl rfl

/-- C5: when a different catalog row (different create_orchestration_id)
holds the requested dns_name in state creating or running, the Reserve
Record activity fails with a message containing the reservation phrase and
commits nothing; when the conflicting row carries the same orchestration id,
the activity succeeds with the id of that row (replay idempotence), also without
changing the catalog. -/
theorem reserve_record_dns_conflict (input : CreateInstanceRecordInput) (newId : Nat)
    (cms : Cms) (d : String) (row : InstanceRow)
    (hk : cms.instances.find? (fun r => r.k8s_name == input.k8s_name) = none)
    (hd : input.dns_name = some d)
    (hpat : likeDeletedPattern d = false)
    (hfind : cms.instances.find? (fun r =>
        r.dns_name == some d && !likeDeletedPattern d &&
        (r.state == "creating" || r.state == "running")) = some row) :
    (row.create_orchestration_id ≠ input.orchestration_id →
      create_instance_record_activity input newId cms =
        (cms, .error ("DNS name \x27" ++ d ++ "\x27 is already reserved by instance \x27" ++
          row.k8s_name ++ "\x27 (user: " ++ row.user_name ++ ")")) ∧
      strContains
        ("DNS name \x27" ++ d ++ "\x27 is already reserved by instance \x27" ++
          row.k8s_name ++ "\x27 (user: " ++ row.user_name ++ ")")
        ("DNS name \x27" ++ d ++ "\x27 is already reserved") = true) ∧
    (row.create_orchestration_id = input.orchestration_id →
      create_instance_record_activity input newId cms = (cms, .ok ⟨row.id⟩)) := by
  have hmem : row ∈ cms.instances := List.mem_of_find?_eq_some hfind
  have hprop : (row.dns_name == some d && !likeDeletedPattern d &&
      (row.state == "creating" || row.state == "running")) = true := by
    have h2 := List.find?_some hfind
    simpa using h2
  have hrowdns : (row.dns_name == some d) = true := by
    simp only [Bool.and_eq_true] at hprop
    exact hprop.1.1
  have hany : cms.instances.any (fun r => r.dns_name == some d) = true := by
    rw [List.any_eq_true]
    exact ⟨row, hmem, hrowdns⟩
  have hviolates : (!likeDeletedPattern d && cms.instances.any
      (fun r => r.dns_name == some d)) = true := by
    rw [hpat, hany]
    rfl
  have hbranch : create_instance_record_activity input newId cms =
      (if row.create_orchestration_id == input.orchestration_id then
        (cms, .ok ⟨row.id⟩)
      else
        (cms, .error ("DNS name \x27" ++ d ++ "\x27 is already reserved by instance \x27" ++
          row.k8s_name ++ "\x27 (user: " ++ row.user_name ++ ")"))) := by
    simp only [create_instance_record_activity, hk, hd, hviolates, hfind]
    simp
  have hsplit : ("DNS name \x27" ++ d ++ "\x27 is already reserved by instance \x27" ++
      row.k8s_name ++ "\x27 (user: " ++ row.user_name ++ ")") =
      ("DNS name \x27" ++ d ++ "\x27 is already reserved") ++
        (" by instance \x27" ++ row.k8s_name ++ "\x27 (user: " ++ row.user_name ++ ")") := by
    have hlit : ("\x27 is already reserved by instance \x27" : String) =
        "\x27 is already reserved" ++ " by instance \x27" := by decide
    rw [hlit]
    simp only [strAppend_assoc]
  constructor
  · intro hne
    have hbe : (row.create_orchestration_id == input.orchestration_id) = false := by
      simpa using hne
    rw [hbranch, hbe]
    refine ⟨by simp, ?_⟩
    rw [hsplit]
    exact strContains_append_self _ _
  · intro heq
    have hbe : (row.create_orchestration_id == input.orchestration_id) = true := by
      simpa using heq
    rw [hbranch, hbe]
    simp

def c5row : InstanceRow :=
  ⟨11, "bob", "mydb-99998888", "toygres", "18", 10, true, some "mydb",
   "running", "healthy", "create-mydb-99998888", none, none, none, none, none, none⟩

def c5cms : Cms := ⟨[c5row], []⟩

def c5input : CreateInstanceRecordInput :=
  ⟨"alice", "mydb-0a1b2c3d", "toygres", "18", 10, true, some "mydb", "create-mydb-0a1b2c3d"⟩

theorem reserve_record_dns_conflict_witness :
    (create_instance_record_activity c5input 12 c5cms =
      (c5cms, .error ("DNS name \x27" ++ "mydb" ++ "\x27 is already reserved by instance \x27" ++
        c5row.k8s_name ++ "\x27 (user: " ++ c5row.user_name ++ ")")) ∧
     strContains
       ("DNS name \x27" ++ "mydb" ++ "\x27 is already reserved by instance \x27" ++
         c5row.k8s_name ++ "\x27 (user: " ++ c5row.user_name ++ ")")
       ("DNS name \x27" ++ "mydb" ++ "\x27 is already reserved") = true) :=
  (reserve_record_dns_conflict c5input 12 c5cms "mydb" c5row rfl rfl (by decide) rfl).1
    (by decide)

/-! ## Readiness-loop trace analysis (for the CreateInstance claims) -/

def countProbe (tr : List CStep) : Nat :=
  tr.countP fun s => match s with | .waitForReady _ => true | _ => false

def countTimerSteps (tr : List CStep) : Nat :=
  tr.countP fun s => match s with | .timer _ => true | _ => false

/-- n+1 probes interleaved with n timers, ending on a probe. -/
def probeTimerBlock : Nat → WaitForReadyInput → List CStep
  | 0, wi => [CStep.waitForReady wi]
  | n + 1, wi => CStep.waitForReady wi :: CStep.timer 5000 :: probeTimerBlock n wi

theorem countProbe_block (n : Nat) (wi : WaitForReadyInput) :
    countProbe (probeTimerBlock n wi) = n + 1 := by
  induction n with
  | zero => rfl
  | succ n ih =>
    simp [probeTimerBlock, countProbe, List.countP_cons] at ih ⊢
    omega

theorem countTimer_block (n : Nat) (wi : WaitForReadyInput) :
    countTimerSteps (probeTimerBlock n wi) = n := by
  induction n with
  | zero => rfl
  | succ n ih =>
    simp [probeTimerBlock, countTimerSteps, List.countP_cons] at ih ⊢
    omega

/-- When every probe from the current attempt through the last reports not
ready, the readiness loop runs to the timeout: its trace is the full
probe/timer interleaving and its result is the timeout error carrying the
phase of the last probe. -/
theorem readinessLoop_never_ready (env : CreateEnv) (st : Nat) (ns nm : String) (M : Nat) :
    ∀ fuel attempt, attempt ≤ M → M - attempt = fuel →
    (∀ i, attempt ≤ i → i ≤ M →
      ∃ out, env.waitForReady i ⟨ns, nm, 0⟩ = .ok out ∧ out.is_ready = false) →
    ∃ ph, readinessLoop env st ns nm M attempt =
      (probeTimerBlock fuel ⟨ns, nm, 0⟩,
       .error ("Timeout: Pod still in phase \x27" ++ ph ++ "\x27 after " ++
         toString M ++ " attempts")) := by
  intro fuel
  induction fuel with
  | zero =>
    intro attempt hle hfa h
    have heq : attempt = M := by omega
    obtain ⟨out, hout, hready⟩ := h attempt le_rfl (by omega)
    refine ⟨out.pod_phase, ?_⟩
    rw [heq] at hout
    rw [readinessLoop]
    simp [heq, hout, hready, probeTimerBlock]
  | succ fuel ih =>
    intro attempt hle hfa h
    have hlt : attempt < M := by omega
    obtain ⟨out, hout, hready⟩ := h attempt le_rfl (by omega)
    obtain ⟨ph, hrec⟩ := ih (attempt + 1) (by omega) (by omega)
      (fun i h1 h2 => h i (by omega) h2)
    refine ⟨ph, ?_⟩
    rw [readinessLoop]
    have hcond : ¬ (M ≤ attempt) := by omega
    simp [hout, hready, hcond, hrec, probeTimerBlock]

/-- An environment whose readiness probe always reports phase Pending, not
ready, and whose other activities succeed. -/
def neverReadyEnv : CreateEnv where
  utcnowStart := .ok 0
  utcnowBreak := .ok 0
  utcnowEnd := .ok 0
  createInstanceRecord := fun _ => .ok ⟨21⟩
  deployPostgres := fun _ => .ok ⟨"mydb-0a1b2c3d", "toygres", true⟩
  waitForReady := fun _ _ => .ok ⟨"Pending", false⟩
  getConnectionStrings := fun _ => .error "unused"
  testConnection := fun _ => .error "unused"
  updateInstanceState := fun _ => .ok ⟨true, none⟩
  recordInstanceActor := fun _ => .ok ⟨true⟩
  freeDnsName := fun _ => .ok ⟨true⟩
  deleteInstanceSub := fun _ => .ok ⟨"mydb-0a1b2c3d", true⟩

/-- C3 counterexample: with every probe not ready, the readiness loop
schedules 60 probes but only 59 five-second timers — the 60th probe is
followed by the timeout failure, not by a timer — so the claimed 60 timers
are not scheduled. -/
theorem readiness_sixty_timers_counterexample :
    countProbe (readinessLoop neverReadyEnv 0 "toygres" "mydb-0a1b2c3d" 60 1).1 = 60 ∧
    countTimerSteps (readinessLoop neverReadyEnv 0 "toygres" "mydb-0a1b2c3d" 60 1).1 = 59 ∧
    countTimerSteps (readinessLoop neverReadyEnv 0 "toygres" "mydb-0a1b2c3d" 60 1).1 ≠ 60 := by
  obtain ⟨ph, h⟩ := readinessLoop_never_ready neverReadyEnv 0 "toygres" "mydb-0a1b2c3d"
    60 59 1 (by omega) (by omega) (fun i h1 h2 => ⟨⟨"Pending", false⟩, rfl, rfl⟩)
  rw [h]
  refine ⟨?_, ?_, ?_⟩
  · exact countProbe_block 59 _
  · exact countTimer_block 59 _
  · rw [countTimer_block 59 _]
    omega

/-- C3 (amended): when every Pod-Readiness probe reports is_ready=false the
readiness loop schedules exactly 60 probe activities interleaved with 59
five-second durable timers (a probe follows every timer, but no timer
follows the 60th probe) and then fails with the timeout error, which also
fails the create_instance_impl body; a probe reporting is_ready=true breaks
the loop after that probe with no further timer. -/
theorem create_readiness_sixty_probes :
    (∀ env st ns nm,
      (∀ i, 1 ≤ i → i ≤ 60 →
        ∃ out, env.waitForReady i ⟨ns, nm, 0⟩ = .ok out ∧ out.is_ready = false) →
      countProbe (readinessLoop env st ns nm 60 1).1 = 60 ∧
      countTimerSteps (readinessLoop env st ns nm 60 1).1 = 59 ∧
      ∃ ph, (readinessLoop env st ns nm 60 1).2 =
        .error ("Timeout: Pod still in phase \x27" ++ ph ++ "\x27 after " ++
          toString (60 : Nat) ++ " attempts")) ∧
    (∀ env st ns nm M attempt out,
      env.waitForReady attempt ⟨ns, nm, 0⟩ = .ok out → out.is_ready = true →
      (readinessLoop env st ns nm M attempt).1 = [CStep.waitForReady ⟨ns, nm, 0⟩]) ∧
    (∀ env (input : CreateInstanceInput) ns pv ssg lb st dout,
      env.utcnowStart = .ok st →
      env.deployPostgres ⟨ns, input.name, input.password, pv, ssg, lb, input.dns_label⟩ =
        .ok dout →
      (∀ i, 1 ≤ i → i ≤ 60 →
        ∃ out, env.waitForReady i ⟨ns, input.name, 0⟩ = .ok out ∧ out.is_ready = false) →
      ∃ ph, (create_instance_impl env input ns pv ssg lb).2 =
        .error ("Timeout: Pod still in phase \x27" ++ ph ++ "\x27 after " ++
          toString (60 : Nat) ++ " attempts")) := by
  refine ⟨?_, ?_, ?_⟩
  · intro env st ns nm h
    obtain ⟨ph, hloop⟩ := readinessLoop_never_ready env st ns nm 60 59 1
      (by omega) (by omega) h
    rw [hloop]
    exact ⟨countProbe_block 59 _, countTimer_block 59 _, ⟨ph, rfl⟩⟩
  · intro env st ns nm M attempt out hout hready
    rw [readinessLoop]
    cases hb : env.utcnowBreak with
    | error e => simp [hout, hready, hb]
    | ok endT =>
      cases hd : durationSinceMs endT st with
      | error e => simp [hout, hready, hb, hd]
      | ok v => simp [hout, hready, hb, hd]
  · intro env input ns pv ssg lb st dout hstart hdeploy h
    obtain ⟨ph, hloop⟩ := readinessLoop_never_ready env st ns input.name 60 59 1
      (by omega) (by omega) h
    refine ⟨ph, ?_⟩
    simp only [create_instance_impl, hstart, hdeploy, hloop]

theorem create_readiness_sixty_probes_witness :
    countProbe (readinessLoop neverReadyEnv 0 "toygres" "mydb-0a1b2c3d" 60 1).1 = 60 ∧
    countTimerSteps (readinessLoop neverReadyEnv 0 "toygres" "mydb-0a1b2c3d" 60 1).1 = 59 ∧
    ∃ ph, (readinessLoop neverReadyEnv 0 "toygres" "mydb-0a1b2c3d" 60 1).2 =
      .error ("Timeout: Pod still in phase \x27" ++ ph ++ "\x27 after " ++
        toString (60 : Nat) ++ " attempts") :=
  create_readiness_sixty_probes.1 neverReadyEnv 0 "toygres" "mydb-0a1b2c3d"
    (fun i h1 h2 => ⟨⟨"Pending", false⟩, rfl, rfl⟩)

/-! ## Default propagation (C10) -/

/-- The property "this scheduling step, if it is one of the three that carry
the resolved configuration, carries exactly these values". -/
def StepUsesDefaults (ns pv : String) (ssg : Int) (lb : Bool) : CStep → Prop
  | .createInstanceRecord i =>
      i.namespace_ = ns ∧ i.postgres_version = pv ∧ i.storage_size_gb = ssg ∧
        i.use_load_balancer = lb
  | .deployPostgres i =>
      i.namespace_ = ns ∧ i.postgres_version = pv ∧ i.storage_size_gb = ssg ∧
        i.use_load_balancer = lb
  | .getConnectionStrings i => i.namespace_ = ns ∧ i.use_load_balancer = lb
  | _ => True

/-- The readiness loop emits only probe and timer steps, for which
StepUsesDefaults holds vacuously. -/
theorem readinessLoop_steps_defaults (env : CreateEnv) (st : Nat) (ns0 nm : String)
    (M : Nat) (ns pv : String) (ssg : Int) (lb : Bool) :
    ∀ fuel attempt, M + 1 - attempt ≤ fuel →
    ∀ s ∈ (readinessLoop env st ns0 nm M attempt).1, StepUsesDefaults ns pv ssg lb s := by
  intro fuel
  induction fuel with
  | zero =>
    intro attempt hfa s hs
    rw [readinessLoop] at hs
    split at hs
    · simp at hs
      simp [hs, StepUsesDefaults]
    · split at hs
      · split at hs
        · simp at hs
          simp [hs, StepUsesDefaults]
        · split at hs
          · simp at hs
            simp [hs, StepUsesDefaults]
          · simp at hs
            simp [hs, StepUsesDefaults]
      · split at hs
        · simp at hs
          simp [hs, StepUsesDefaults]
        · rename_i hnotle
          exact absurd (by omega : M ≤ attempt) hnotle
  | succ fuel ih =>
    intro attempt hfa s hs
    rw [readinessLoop] at hs
    split at hs
    · simp at hs
      simp [hs, StepUsesDefaults]
    · split at hs
      · split at hs
        · simp at hs
          simp [hs, StepUsesDefaults]
        · split at hs
          · simp at hs
            simp [hs, StepUsesDefaults]
          · simp at hs
            simp [hs, StepUsesDefaults]
      · split at hs
        · simp at hs
          simp [hs, StepUsesDefaults]
        · simp at hs
          rcases hs with hs | hs | hs
          · simp [hs, StepUsesDefaults]
          · simp [hs, StepUsesDefaults]
          · exact ih (attempt + 1) (by omega) s hs

/-- Every step create_instance_impl schedules carries the configuration it
was called with, wherever the step carries configuration at all. -/
theorem create_instance_impl_steps_defaults (env : CreateEnv) (input : CreateInstanceInput)
    (ns pv : String) (ssg : Int) (lb : Bool) :
    ∀ s ∈ (create_instance_impl env input ns pv ssg lb).1,
      StepUsesDefaults ns pv ssg lb s := by
  intro s hs
  have hloop : ∀ st : Nat, ∀ s2 ∈ (readinessLoop env st ns input.name 60 1).1,
      StepUsesDefaults ns pv ssg lb s2 :=
    fun st => readinessLoop_steps_defaults env st ns input.name 60 ns pv ssg lb
      (60 + 1 - 1) 1 (by omega)
  simp only [create_instance_impl] at hs
  split at hs
  · simp at hs
  · rename_i start_time h0
    split at hs
    · simp at hs
      simp [hs, StepUsesDefaults]
    · split at hs
      · simp at hs
        rcases hs with hs | hs
        · simp [hs, StepUsesDefaults]
        · exact hloop start_time s hs
      · split at hs
        · simp at hs
          rcases hs with hs | hs
          · simp [hs, StepUsesDefaults]
          · exact hloop start_time s hs
        · rename_i end_time h3
          split at hs
          · simp at hs
            rcases hs with hs | hs
            · simp [hs, StepUsesDefaults]
            · exact hloop start_time s hs
          · split at hs
            · simp at hs
              rcases hs with hs | hs | hs
              · simp [hs, StepUsesDefaults]
              · exact hloop start_time s hs
              · simp [hs, StepUsesDefaults]
            · split at hs
              · simp at hs
                rcases hs with hs | hs | hs | hs
                · simp [hs, StepUsesDefaults]
                · exact hloop start_time s hs
                · simp [hs, StepUsesDefaults]
                · simp [hs, StepUsesDefaults]
              · simp at hs
                rcases hs with hs | hs | hs | hs
                · simp [hs, StepUsesDefaults]
                · exact hloop start_time s hs
                · simp [hs, StepUsesDefaults]
                · simp [hs, StepUsesDefaults]

/-- C10: with the four optional inputs omitted, CreateInstance resolves
namespace to toygres, postgres_version to 18, storage_size_gb to 10, and
use_load_balancer to true before its first scheduled activity — its first
step is the CMS reservation built from those defaults — and every scheduled
step that carries configuration (catalog record, Kubernetes deployment,
connection-string build) carries exactly those defaults. -/
theorem create_defaults_used (env : CreateEnv) (input : CreateInstanceInput)
    (hns : input.namespace_ = none) (hv : input.postgres_version = none)
    (hsz : input.storage_size_gb = none) (hlb : input.use_load_balancer = none) :
    (create_instance_orchestration env input).1.head? =
      some (CStep.createInstanceRecord
        ⟨input.user_name, input.name, "toygres", "18", 10, true, input.dns_label,
         input.orchestration_id⟩) ∧
    ∀ s ∈ (create_instance_orchestration env input).1,
      StepUsesDefaults "toygres" "18" 10 true s := by
  have hcms : create_instance_orchestration env input =
      (let cms_input : CreateInstanceRecordInput :=
        ⟨input.user_name, input.name, "toygres", "18", 10, true, input.dns_label,
         input.orchestration_id⟩
      match env.createInstanceRecord cms_input with
      | .error e => ([CStep.createInstanceRecord cms_input], .error e)
      | .ok _ =>
        let implRes := create_instance_impl env input "toygres" "18" 10 true
        match implRes.2 with
        | .ok output =>
            (CStep.createInstanceRecord cms_input :: implRes.1 ++
              create_update_cms_state
                ⟨input.name, "running", some output.ip_connection_string,
                 output.dns_connection_string, output.external_ip, none,
                 some ("Instance ready in " ++ toString output.deployment_time_seconds ++
                   " seconds")⟩ ++
              start_instance_actor input.name "toygres",
             .ok output)
        | .error e =>
            (CStep.createInstanceRecord cms_input :: implRes.1 ++
              mark_instance_failed_steps input.name e ++
              cleanup_on_failure_steps "toygres" input.name,
             .error e)) := by
    rw [create_instance_orchestration]
    rw [hns, hv, hsz, hlb]
    rfl
  rw [hcms]
  have himplsteps := create_instance_impl_steps_defaults env input "toygres" "18" 10 true
  cases h0 : env.createInstanceRecord
      ⟨input.user_name, input.name, "toygres", "18", 10, true, input.dns_label,
       input.orchestration_id⟩ with
  | error e =>
    simp only [h0]
    refine ⟨rfl, ?_⟩
    intro s hs
    simp at hs
    simp [hs, StepUsesDefaults]
  | ok rec0 =>
    simp only [h0]
    cases h1 : (create_instance_impl env input "toygres" "18" 10 true).2 with
    | ok output =>
      simp only [h1]
      refine ⟨rfl, ?_⟩
      intro s hs
      simp [create_update_cms_state, start_instance_actor] at hs
      rcases hs with hs | hs | hs | hs | hs
      · simp [hs, StepUsesDefaults]
      · exact himplsteps s hs
      · simp [hs, StepUsesDefaults]
      · simp [hs, StepUsesDefaults]
      · simp [hs, StepUsesDefaults]
    | error e =>
      simp only [h1]
      refine ⟨rfl, ?_⟩
      intro s hs
      simp [mark_instance_failed_steps, cleanup_on_failure_steps,
        create_update_cms_state] at hs
      rcases hs with hs | hs | hs | hs | hs
      · simp [hs, StepUsesDefaults]
      · exact himplsteps s hs
      · simp [hs, StepUsesDefaults]
      · simp [hs, StepUsesDefaults]
      · simp [hs, StepUsesDefaults]

def c10input : CreateInstanceInput :=
  ⟨"alice", "mydb-0a1b2c3d", "s3cret", none, none, none, some "mydb", none,
   "create-mydb-0a1b2c3d"⟩

theorem create_defaults_used_witness :
    (create_instance_orchestration neverReadyEnv c10input).1.head? =
      some (CStep.createInstanceRecord
        ⟨"alice", "mydb-0a1b2c3d", "toygres", "18", 10, true, some "mydb",
         "create-mydb-0a1b2c3d"⟩) ∧
    ∀ s ∈ (create_instance_orchestration neverReadyEnv c10input).1,
      StepUsesDefaults "toygres" "18" 10 true s :=
  create_defaults_used neverReadyEnv c10input rfl rfl rfl rfl

end Toygres
